import Mathlib

/-!
Verification development for the spectral-matching tool.

The Python sources (config.py, src/spectrum.py, src/utils.py) are shallowly
embedded below.  Files are modelled as lists of lines (`List String`),
machine floats as exact rationals (`ℚ`), numpy arrays as `List ℚ`, and
raised Python exceptions as `Except.error` carrying the message text.
Python string primitives (strip, upper, split, ...) are given structurally
recursive definitions over the character list of a string so that every
embedded operation evaluates inside the kernel.
The float log10 transform used by the transmittance-to-absorbance
conversion operates on floats, so it is kept abstract: the conversion and
the absorbance accessor take the transform `t : ℚ → ℚ` (standing for
v ↦ -log10 (max v 1e-12)) as an explicit argument; none of the verified
properties depend on it.
-/

/-- Equality of embedded fallible results is decidable, so concrete runs
of the embedded operations can be checked by evaluation. -/
instance {ε α : Type} [DecidableEq ε] [DecidableEq α] : DecidableEq (Except ε α) := fun a b =>
  match a, b with
  | .ok v, .ok w =>
    if h : v = w then isTrue (by rw [h]) else isFalse (fun he => by cases he; exact h rfl)
  | .error v, .error w =>
    if h : v = w then isTrue (by rw [h]) else isFalse (fun he => by cases he; exact h rfl)
  | .ok _, .error _ => isFalse (fun he => by cases he)
  | .error _, .ok _ => isFalse (fun he => by cases he)

/-!  Python string primitives, as structurally recursive functions.  -/

/-- Leading and trailing whitespace removed (Python str.strip()). -/
def trimChars (cs : List Char) : List Char :=
  ((cs.dropWhile Char.isWhitespace).reverse.dropWhile Char.isWhitespace).reverse

/-- Python s.strip(). -/
def pyStrip (s : String) : String := ⟨trimChars s.data⟩

/-- Python s.upper(). -/
def pyUpper (s : String) : String := ⟨s.data.map Char.toUpper⟩

/-- Python s[n:]. -/
def pyDrop (n : Nat) (s : String) : String := ⟨s.data.drop n⟩

/-- Split at every character satisfying p, keeping empty tokens (the
behaviour of Python s.split(sep) for a one-character sep). -/
def splitPred (p : Char → Bool) : List Char → List (List Char)
  | [] => [[]]
  | c :: rest =>
    if p c then [] :: splitPred p rest
    else
      match splitPred p rest with
      | [] => [[c]]
      | h :: t => (c :: h) :: t

/-- Python s.split(c) for a one-character separator. -/
def pySplitChar (c : Char) (s : String) : List String :=
  (splitPred (fun d => d = c) s.data).map String.mk

/-- Python s.split() with no argument: split on whitespace runs,
discarding empty tokens. -/
def pySplitWs (s : String) : List String :=
  ((splitPred Char.isWhitespace s.data).map String.mk).filter (fun t => t ≠ "")

/-- Join with a one-character separator (inverse of pySplitChar). -/
def joinChar (c : Char) : List String → String
  | [] => ""
  | [t] => t
  | t :: rest => t ++ ⟨[c]⟩ ++ joinChar c rest

/-- Python s.split(c, 1) for a one-character separator: the part before
the first occurrence and the remainder rejoined. -/
def splitOnceChar (c : Char) (s : String) : String × String :=
  match pySplitChar c s with
  | [] => (s, "")
  | [a] => (a, "")
  | a :: rest => (a, joinChar c rest)

/-- Boolean list-level test that the first list begins the second. -/
def isPrefixCL : List Char → List Char → Bool
  | [], _ => true
  | _ :: _, [] => false
  | a :: as, b :: bs => a = b && isPrefixCL as bs

/-- Python s.startswith(p). -/
def pyStarts (p s : String) : Bool := isPrefixCL p.data s.data

/-- Python (c in s) for a single character. -/
def hasChar (c : Char) (s : String) : Bool := s.data.any (fun d => d = c)

/-- Value of a nonempty all-digit character list, as used by the numeric
literal parsers; `none` when empty or when a non-digit occurs. -/
def digitsVal? (cs : List Char) : Option Nat :=
  match cs with
  | [] => none
  | _ => cs.foldlM (fun acc c => if c.isDigit then some (10 * acc + (c.toNat - 48)) else none) 0

/-- Mantissa of a decimal literal: digits with an optional decimal point,
either side of the point possibly empty but not both. -/
def parseMantissaCL (cs : List Char) : Option ℚ :=
  match splitPred (fun c => c = '.') cs with
  | [i] => (digitsVal? i).map (fun n => (n : ℚ))
  | [i, f] =>
    if i = [] then (digitsVal? f).map (fun m => (m : ℚ) / 10 ^ f.length)
    else if f = [] then (digitsVal? i).map (fun n => (n : ℚ))
    else
      match digitsVal? i, digitsVal? f with
      | some n, some m => some ((n : ℚ) + (m : ℚ) / 10 ^ f.length)
      | _, _ => none
  | _ => none

/-- Apply a parser under an optional leading sign. -/
def parseSignedCL (p : List Char → Option ℚ) (cs : List Char) : Option ℚ :=
  match cs with
  | '-' :: rest => (p rest).map Neg.neg
  | '+' :: rest => p rest
  | _ => p cs

/-- Signed all-digit integer (exponent part of a float literal). -/
def parseExpCL (cs : List Char) : Option ℤ :=
  match cs with
  | '-' :: rest => (digitsVal? rest).map (fun n => -(n : ℤ))
  | '+' :: rest => (digitsVal? rest).map (fun n => (n : ℤ))
  | _ => (digitsVal? cs).map (fun n => (n : ℤ))

/-- Models Python `float(s)` on finite decimal literals (optional sign,
optional fraction, optional exponent, surrounding whitespace stripped);
`none` models the `ValueError` raised for anything else.  The special
values inf and nan are outside the model. -/
def parseFloat (s : String) : Option ℚ :=
  let cs := (trimChars s.data).map Char.toLower
  match splitPred (fun c => c = 'e') cs with
  | [m] => parseSignedCL parseMantissaCL m
  | [m, ex] => do
      let mv ← parseSignedCL parseMantissaCL m
      let ev ← parseExpCL ex
      some (mv * (10 : ℚ) ^ ev)
  | _ => none

/-- Models Python `int(s)`: optional sign, digits only; `none` models the
`ValueError` raised otherwise. -/
def parseInt? (s : String) : Option ℤ :=
  match trimChars s.data with
  | '-' :: rest => (digitsVal? rest).map (fun n => -(n : ℤ))
  | '+' :: rest => (digitsVal? rest).map (fun n => (n : ℤ))
  | cs => (digitsVal? cs).map (fun n => (n : ℤ))

/-!  config.py: the configuration surface consumed by the core.  -/

/-- config.py line 78: fields that must be present in a .jdx file. -/
def required_fields_in_jdx : List String :=
  ["title", "molform", "yunits", "firstx", "deltax", "npoints"]

/-- config.py line 89: default header size for CSV sample files. -/
def header_size_in_csv : Nat := 1

/-- The user-editable configuration read by utils.analyze_spectrum
(config.py lines 19, 39, 40, 50), with the shipped default values. -/
structure Config where
  baseline_correction_use : Bool := true
  ref_multiplier : Option (List ℚ) := none
  selected_ref_names : Option (List String) := none
  clamp_negative_multipliers : Bool := true
deriving DecidableEq, Repr

/-!  src/spectrum.py: the Spectrum dataclass and its parsing factories.  -/

/-- The Spectrum dataclass (src/spectrum.py lines 16-41): optional
metadata fields plus the x and y arrays. -/
structure Spectrum where
  title : Option String := none
  data_type : Option String := none
  cas_registry_no : Option String := none
  molform : Option String := none
  state : Option String := none
  xunits : Option String := none
  yunits : Option String := none
  xfactor : Option ℚ := none
  yfactor : Option ℚ := none
  deltax : Option ℚ := none
  firstx : Option ℚ := none
  lastx : Option ℚ := none
  firsty : Option ℚ := none
  maxx : Option ℚ := none
  minx : Option ℚ := none
  maxy : Option ℚ := none
  miny : Option ℚ := none
  npoints : Option ℤ := none
  x : List ℚ := []
  y : List ℚ := []
deriving DecidableEq, Repr

/-- Python `f"{v}"` of an optional string: `None` when unset. -/
def pyShow (v : Option String) : String := v.getD "None"

/-- The keymap of from_jdx (src/spectrum.py lines 50-69): .jdx label to
dataclass field name. -/
def keymapField (label : String) : Option String :=
  match label with
  | "TITLE" => some "title"
  | "DATA TYPE" => some "data_type"
  | "CAS REGISTRY NO" => some "cas_registry_no"
  | "MOLFORM" => some "molform"
  | "STATE" => some "state"
  | "XUNITS" => some "xunits"
  | "YUNITS" => some "yunits"
  | "XFACTOR" => some "xfactor"
  | "YFACTOR" => some "yfactor"
  | "DELTAX" => some "deltax"
  | "FIRSTX" => some "firstx"
  | "LASTX" => some "lastx"
  | "FIRSTY" => some "firsty"
  | "MAXX" => some "maxx"
  | "MINX" => some "minx"
  | "MAXY" => some "maxy"
  | "MINY" => some "miny"
  | "NPOINTS" => some "npoints"
  | _ => none

/-- setattr with per-field value conversion (src/spectrum.py lines 81-86):
float fields via `float(val)`, the int field via `int(val)`, the rest
stored as the string; a conversion failure is the uncaught ValueError
that aborts the parse. -/
def setJdxField (s : Spectrum) (fieldName val : String) : Except String Spectrum :=
  match fieldName with
  | "title" => .ok { s with title := some val }
  | "data_type" => .ok { s with data_type := some val }
  | "cas_registry_no" => .ok { s with cas_registry_no := some val }
  | "molform" => .ok { s with molform := some val }
  | "state" => .ok { s with state := some val }
  | "xunits" => .ok { s with xunits := some val }
  | "yunits" => .ok { s with yunits := some val }
  | "xfactor" =>
    match parseFloat val with
    | some q => .ok { s with xfactor := some q }
    | none => .error ("could not convert string to float: " ++ val)
  | "yfactor" =>
    match parseFloat val with
    | some q => .ok { s with yfactor := some q }
    | none => .error ("could not convert string to float: " ++ val)
  | "deltax" =>
    match parseFloat val with
    | some q => .ok { s with deltax := some q }
    | none => .error ("could not convert string to float: " ++ val)
  | "firstx" =>
    match parseFloat val with
    | some q => .ok { s with firstx := some q }
    | none => .error ("could not convert string to float: " ++ val)
  | "lastx" =>
    match parseFloat val with
    | some q => .ok { s with lastx := some q }
    | none => .error ("could not convert string to float: " ++ val)
  | "firsty" =>
    match parseFloat val with
    | some q => .ok { s with firsty := some q }
    | none => .error ("could not convert string to float: " ++ val)
  | "maxx" =>
    match parseFloat val with
    | some q => .ok { s with maxx := some q }
    | none => .error ("could not convert string to float: " ++ val)
  | "minx" =>
    match parseFloat val with
    | some q => .ok { s with minx := some q }
    | none => .error ("could not convert string to float: " ++ val)
  | "maxy" =>
    match parseFloat val with
    | some q => .ok { s with maxy := some q }
    | none => .error ("could not convert string to float: " ++ val)
  | "miny" =>
    match parseFloat val with
    | some q => .ok { s with miny := some q }
    | none => .error ("could not convert string to float: " ++ val)
  | "npoints" =>
    match parseInt? val with
    | some n => .ok { s with npoints := some n }
    | none => .error ("invalid literal for int() with base 10: " ++ val)
  | _ => .ok s

/-- One iteration of the from_jdx line loop (src/spectrum.py lines 71-93):
the header-field branch followed by the data-line branch, threading the
partially filled Spectrum and the accumulated y values. -/
def scanJdxLine (acc : Spectrum × List ℚ) (rawLine : String) : Except String (Spectrum × List ℚ) :=
  let line := pyStrip rawLine
  let hdr : Except String Spectrum :=
    if pyStarts "##" line && hasChar '=' line then
      let lv := splitOnceChar '=' (pyDrop 2 line)
      let label := pyUpper (pyStrip lv.1)
      let val := pyStrip lv.2
      match keymapField label with
      | some fn => setJdxField acc.1 fn val
      | none => .ok acc.1
    else .ok acc.1
  match hdr with
  | .error e => .error e
  | .ok s =>
    if (match line.data with | c :: _ => c.isDigit | [] => false) then
      let parts := pySplitWs line
      match (parts.drop 1).mapM parseFloat with
      | some vs => .ok (s, acc.2 ++ vs)
      | none =>
        .error ("could not convert string to float: " ++
          (((parts.drop 1).filter (fun p => (parseFloat p).isNone)).headD ""))
    else .ok (s, acc.2)

/-- The full line scan of from_jdx over the lines of the file. -/
def scanJdx (lines : List String) : Except String (Spectrum × List ℚ) :=
  lines.foldlM scanJdxLine ({}, [])

/-- Python truthiness of an optional string attribute. -/
def truthyOptStr (v : Option String) : Bool :=
  match v with
  | some w => w ≠ ""
  | none => false

/-- Python truthiness of an optional float attribute. -/
def truthyOptQ (v : Option ℚ) : Bool :=
  match v with
  | some q => decide (q ≠ 0)
  | none => false

/-- Python truthiness of `getattr(s, key)` for the dataclass fields, as
consulted by the required-field check (src/spectrum.py line 100):
None, the empty string, 0 and 0.0 are all falsy. -/
def fieldTruthy (s : Spectrum) (key : String) : Bool :=
  match key with
  | "title" => truthyOptStr s.title
  | "data_type" => truthyOptStr s.data_type
  | "cas_registry_no" => truthyOptStr s.cas_registry_no
  | "molform" => truthyOptStr s.molform
  | "state" => truthyOptStr s.state
  | "xunits" => truthyOptStr s.xunits
  | "yunits" => truthyOptStr s.yunits
  | "xfactor" => truthyOptQ s.xfactor
  | "yfactor" => truthyOptQ s.yfactor
  | "deltax" => truthyOptQ s.deltax
  | "firstx" => truthyOptQ s.firstx
  | "lastx" => truthyOptQ s.lastx
  | "firsty" => truthyOptQ s.firsty
  | "maxx" => truthyOptQ s.maxx
  | "minx" => truthyOptQ s.minx
  | "maxy" => truthyOptQ s.maxy
  | "miny" => truthyOptQ s.miny
  | "npoints" => (match s.npoints with | some n => decide (n ≠ 0) | none => false)
  | _ => false

/-- The post-scan part of from_jdx (src/spectrum.py lines 96-120):
assign y, run the required-field check (line 100 tests Python truthiness
of the attribute), strip spaces from molform, regenerate x from npoints,
deltax and firstx, run the emptiness and length checks, and apply the
yfactor scaling. -/
def finalizeJdx (path : String) (sy : Spectrum × List ℚ) : Except String Spectrum :=
  let s1 : Spectrum := { sy.1 with y := sy.2 }
  match required_fields_in_jdx.find? (fun k => !(fieldTruthy s1 k)) with
  | some k => .error ("Could not parse " ++ k ++ " in " ++ path)
  | none =>
    match s1.molform with
    | none => .error "AttributeError: NoneType object has no attribute replace"
    | some m =>
      let s2 := { s1 with molform := some (String.mk (m.data.filter (fun c => c ≠ ' '))) }
      match s2.npoints, s2.deltax, s2.firstx with
      | some n, some dx, some fx =>
        let s3 := { s2 with x := (List.range n.toNat).map (fun i : ℕ => (i : ℚ) * dx + fx) }
        if s3.x.length = 0 then .error ("Missing array field x in " ++ path)
        else if s3.y.length = 0 then .error ("Missing array field y in " ++ path)
        else if s3.x.length ≠ s3.y.length then
          .error ("The number of x-values and y-values in " ++ pyShow s3.title ++
            " does not match.")
        else
          match s3.yfactor with
          | some yf =>
            if yf ≠ 1 then .ok { s3 with y := s3.y.map (fun v => v * yf) } else .ok s3
          | none => .ok s3
      | _, _, _ => .error "TypeError: unsupported operand type for arange"

/-- Spectrum.from_jdx (src/spectrum.py lines 44-120), over the lines of
the file at `path`. -/
def from_jdx (path : String) (lines : List String) : Except String Spectrum :=
  match scanJdx lines with
  | .error e => .error e
  | .ok sy => finalizeJdx path sy

/-- Python `max(l)` over a list of floats: `ValueError` on an empty
sequence, otherwise a fold of the binary max. -/
def pyMax (l : List ℚ) : Except String ℚ :=
  match l with
  | [] => .error "ValueError: max() arg is an empty sequence"
  | h :: t => .ok (t.foldl max h)

/-- Python `min(l)` over a list of floats. -/
def pyMin (l : List ℚ) : Except String ℚ :=
  match l with
  | [] => .error "ValueError: min() arg is an empty sequence"
  | h :: t => .ok (t.foldl min h)

/-- `os.path.splitext(os.path.basename(path))[0]`: the file name without
its directory part and final extension (src/spectrum.py line 163). -/
def basenameNoExt (path : String) : String :=
  let base := (pySplitChar '/' path).getLastD path
  let parts := pySplitChar '.' base
  if parts.length ≤ 1 then base else joinChar '.' parts.dropLast

/-- The data-row loop of from_csv (src/spectrum.py lines 138-154): strip
each line, skip blanks, split on commas, reject rows with fewer than two
fields, convert the first two fields with `float`, and collect the x and
y columns. -/
def parseCsvRows (rows : List String) : Except String (List ℚ × List ℚ) :=
  match rows with
  | [] => .ok ([], [])
  | l :: rest =>
    let line := pyStrip l
    if line = "" then parseCsvRows rest
    else
      let parts := pySplitChar ',' line
      if parts.length < 2 then .error ("Invalid CSV row (expected 2 columns): " ++ line)
      else
        match parseFloat (parts.getD 0 ""), parseFloat (parts.getD 1 "") with
        | some xv, some yv =>
          match parseCsvRows rest with
          | .ok (xs, ys) => .ok (xv :: xs, yv :: ys)
          | .error e => .error e
        | _, _ => .error ("Non-numeric value in row: " ++ line)

/-- The metadata-assignment tail of from_csv (src/spectrum.py lines
156-179), in source order: the max/min calls raise the unguarded
ValueError on empty columns, and the `y_vals[1]` access raises the
unguarded IndexError when fewer than two rows were read. -/
def finalizeCsv (path : String) (name molform : Option String) (xs ys : List ℚ) :
    Except String Spectrum :=
  let title :=
    match name with
    | some n => if n ≠ "" then n else basenameNoExt path
    | none => basenameNoExt path
  let mf :=
    match molform with
    | some m => if m ≠ "" then some m else none
    | none => none
  match pyMax xs with
  | .error e => .error e
  | .ok maxx =>
    match pyMin xs with
    | .error e => .error e
    | .ok minx =>
      match pyMax ys with
      | .error e => .error e
      | .ok maxy =>
        match pyMin ys with
        | .error e => .error e
        | .ok miny =>
          match xs.head? with
          | none => .error "IndexError: list index out of range"
          | some firstx =>
            match xs.getLast? with
            | none => .error "IndexError: list index out of range"
            | some lastx =>
              match ys.get? 1 with
              | none => .error "IndexError: list index out of range"
              | some firsty =>
                .ok { title := some title, molform := mf,
                      maxx := some maxx, minx := some minx,
                      maxy := some maxy, miny := some miny,
                      firstx := some firstx, lastx := some lastx, firsty := some firsty,
                      npoints := some (xs.length : ℤ),
                      xunits := some "1/cm", yunits := some "ABSORBANCE",
                      x := xs, y := ys }

/-- Spectrum.from_csv (src/spectrum.py lines 125-179): skip `headerSize`
lines unconditionally, read the data rows, then derive the metadata. -/
def from_csv (path : String) (name molform : Option String) (headerSize : Nat)
    (lines : List String) : Except String Spectrum :=
  match parseCsvRows (lines.drop headerSize) with
  | .error e => .error e
  | .ok xy => finalizeCsv path name molform xy.1 xy.2

/-- Spectrum.get_y_absorbance (src/spectrum.py lines 181-200).  `t` is
the float transform v ↦ -log10 (max v 1e-12) applied to transmittance
values, kept abstract. -/
def get_y_absorbance (t : ℚ → ℚ) (s : Spectrum) : Except String (List ℚ) :=
  match s.yunits with
  | none => .error ("yunits is not set in " ++ pyShow s.title)
  | some u =>
    if pyUpper (pyStrip u) = "ABSORBANCE" then .ok s.y
    else if pyUpper (pyStrip u) = "TRANSMITTANCE" then .ok (s.y.map t)
    else .error ("Unsupported Y unit type: " ++ u ++ " in " ++ pyShow s.title)

/-- Spectrum.convert_to_absorbance (src/spectrum.py lines 223-236).  Note
that the function body ends after the transmittance branch: a set but
unrecognized unit falls through and returns with the spectrum unchanged
and no exception. -/
def convert_to_absorbance (t : ℚ → ℚ) (s : Spectrum) : Except String Spectrum :=
  match s.yunits with
  | none => .error ("yunits is not set in " ++ pyShow s.title)
  | some u =>
    if pyUpper (pyStrip u) = "ABSORBANCE" then .ok s
    else if pyUpper (pyStrip u) = "TRANSMITTANCE" then
      .ok { s with y := s.y.map t, yunits := some "ABSORBANCE" }
    else .ok s

/-- Models numpy.interp (numpy compiled_interp) at a single point:
fill with `rval` when the query exceeds the final knot, with `lval` when
it precedes the first knot, otherwise locate the interval as the last
index j with xp[j] <= x (for short arrays numpy uses exactly this linear
search) and evaluate the segment through (xp[j], fp[j]) and
(xp[j+1], fp[j+1]); the documented semantics assume xp is increasing. -/
def np_interp (xp fp : List ℚ) (lval rval : ℚ) (x : ℚ) : ℚ :=
  if xp.getLastD 0 < x then rval
  else if x < xp.headD 0 then lval
  else
    let i := xp.findIdx (fun v => decide (x < v))
    if i = 0 then lval
    else if xp.length ≤ i then fp.getLastD 0
    else
      let x0 := xp.getD (i - 1) 0
      let x1 := xp.getD i 0
      let y0 := fp.getD (i - 1) 0
      let y1 := fp.getD i 0
      y0 + (y1 - y0) * (x - x0) / (x1 - x0)

/-- utils.interpolate_to (src/utils.py lines 43-50): resample the
reference absorbance curve onto the sample grid with 0.0 fill on both
sides. -/
def interpolate_to (t : ℚ → ℚ) (sample_x : List ℚ) (ref : Spectrum) :
    Except String (List ℚ) :=
  match get_y_absorbance t ref with
  | .error e => .error e
  | .ok ya => .ok (sample_x.map (np_interp ref.x ya 0 0))

/-!  utils.analyze_spectrum (src/utils.py lines 53-139).  The numeric
lstsq solve and all plotting are external library calls; the solver
output is taken as a parameter and the control flow is recorded as an
event trace, in the order the Python statements execute.  -/

/-- Observable steps of analyze_spectrum, in execution order. -/
inductive AnalyzeEvent where
  | loadReferences
  | validationError (msg : String)
  | filterReferences
  | baselineCorrection
  | lstsqSolve
  | clampMultipliers
  | plotSample
deriving DecidableEq, Repr

/-- Outcome of analyze_spectrum on one sample: the event trace and the
multiplier list that reaches the plotting stage (none when a validation
error aborts the run). -/
structure AnalyzeOutcome where
  events : List AnalyzeEvent
  multipliers : Option (List ℚ)
deriving DecidableEq, Repr

/-- Python truthiness of the optional multiplier / name lists. -/
def truthyOptList {α : Type} (v : Option (List α)) : Bool :=
  match v with
  | some l => !l.isEmpty
  | none => false

/-- utils.analyze_spectrum for a single sample (src/utils.py lines
53-139): line 56 loads every reference from disk first; lines 58-68
validate the manual-multiplier configuration; line 71 filters the
reference set; line 75 applies baseline correction; lines 78-90 either
solve least squares (with optional clamping) or keep the manual
multipliers; the remainder plots.  `lstsqResult` stands for the
`np.linalg.lstsq` output. -/
def analyze_spectrum (cfg : Config) (lstsqResult : List ℚ) : AnalyzeOutcome :=
  let ev0 := [AnalyzeEvent.loadReferences]
  if truthyOptList cfg.ref_multiplier && !(truthyOptList cfg.selected_ref_names) then
    { events := ev0 ++
        [.validationError "selected_ref_names must be provided when ref_multiplier is used."],
      multipliers := none }
  else if truthyOptList cfg.ref_multiplier &&
      (cfg.ref_multiplier.getD []).length ≠ (cfg.selected_ref_names.getD []).length then
    { events := ev0 ++
        [.validationError "selected_ref_names must have the same length as ref_multiplier, specifying which reference spectrum each multiplier corresponds to."],
      multipliers := none }
  else
    let ev1 := if truthyOptList cfg.selected_ref_names then ev0 ++ [.filterReferences] else ev0
    let ev2 := if cfg.baseline_correction_use then ev1 ++ [.baselineCorrection] else ev1
    match cfg.ref_multiplier with
    | none =>
      let solved := lstsqResult
      if cfg.clamp_negative_multipliers then
        { events := ev2 ++ [.lstsqSolve, .clampMultipliers, .plotSample],
          multipliers := some (solved.map (fun v => max v 0)) }
      else
        { events := ev2 ++ [.lstsqSolve, .plotSample], multipliers := some solved }
    | some ms => { events := ev2 ++ [.plotSample], multipliers := some ms }

/-!  Concrete inputs used by the claim theorems below.  -/

/-- A structured file in which every required field is present and
parseable, with FIRSTX present and equal to 0.0. -/
def jdxFirstxZeroLines : List String :=
  ["##TITLE=Water", "##MOLFORM=H2O", "##YUNITS=TRANSMITTANCE",
   "##FIRSTX=0.0", "##DELTAX=1.0", "##NPOINTS=3", "0.0 0.1 0.2 0.3"]

/-- A spectrum whose declared y unit is set but is neither absorbance nor
transmittance. -/
def unsupportedUnitSpec : Spectrum :=
  { yunits := some "KUBELKA MUNK", y := [1/2], title := some "s1" }

unseal Rat.add Rat.mul Rat.inv Rat.sub Rat.ofScientific in
/-- C2: the required-field check (src/spectrum.py line 100) tests Python
truthiness, so a numeric required field that parsed to 0.0 is treated as
missing: on this file every required field parses (firstx parses to 0.0),
yet from_jdx fails with the missing-field error naming firstx. -/
theorem from_jdx_firstx_zero_rejected :
    ((scanJdx jdxFirstxZeroLines).toOption.map (fun p => p.1.firstx)) = some (some 0) ∧
    ((scanJdx jdxFirstxZeroLines).toOption.map (fun p => p.1.title)) = some (some "Water") ∧
    ((scanJdx jdxFirstxZeroLines).toOption.map (fun p => p.1.molform)) = some (some "H2O") ∧
    ((scanJdx jdxFirstxZeroLines).toOption.map (fun p => p.1.yunits)) =
      some (some "TRANSMITTANCE") ∧
    ((scanJdx jdxFirstxZeroLines).toOption.map (fun p => p.1.deltax)) = some (some 1) ∧
    ((scanJdx jdxFirstxZeroLines).toOption.map (fun p => p.1.npoints)) = some (some 3) ∧
    from_jdx "z.jdx" jdxFirstxZeroLines = .error "Could not parse firstx in z.jdx" := by
  decide

unseal Rat.add Rat.mul Rat.inv Rat.sub in
/-- C4: for a set but unsupported y-unit tag the mutating conversion
returns silently with the spectrum unchanged, while the read-only
accessor raises the unsupported-unit error. -/
theorem convert_to_absorbance_silent_unsupported :
    convert_to_absorbance id unsupportedUnitSpec = .ok unsupportedUnitSpec ∧
    get_y_absorbance id unsupportedUnitSpec =
      .error "Unsupported Y unit type: KUBELKA MUNK in s1" := by
  decide

/-- A manual multiplier list of length two paired with a single selected
reference name. -/
def cfgManualMismatch : Config :=
  { ref_multiplier := some [1/2, 1/2], selected_ref_names := some ["H2O"] }

unseal Rat.add Rat.mul Rat.inv Rat.sub in
/-- C3 counterexample: with manual multipliers [0.5, 0.5] and a single
identifier, the run does fail validation, but the reference-loading step
(get_references at src/utils.py line 56) has already executed before the
validation error: the event preceding the error is the reference load,
refuting the claim that validation fails before any reference spectrum
is loaded. -/
theorem analyze_validation_order_cex :
    (analyze_spectrum cfgManualMismatch []).events =
      [AnalyzeEvent.loadReferences,
       AnalyzeEvent.validationError "selected_ref_names must have the same length as ref_multiplier, specifying which reference spectrum each multiplier corresponds to."] ∧
    ((analyze_spectrum cfgManualMismatch []).events.takeWhile
        (fun e => match e with | AnalyzeEvent.validationError _ => false | _ => true)) =
      [AnalyzeEvent.loadReferences] := by
  decide

/-- C3 amended: a manual multiplier list with a missing or length-
mismatched identifier list makes the analysis fail with a validation
error before any numeric computation (no solve, no clamping) — but after
the reference spectra have been loaded, which is the first event of the
trace. -/
theorem analyze_validation_after_load (cfg : Config) (lstsq : List ℚ)
    (hm : truthyOptList cfg.ref_multiplier = true)
    (hbad : truthyOptList cfg.selected_ref_names = false ∨
      (cfg.ref_multiplier.getD []).length ≠ (cfg.selected_ref_names.getD []).length) :
    ∃ msg, (analyze_spectrum cfg lstsq).events =
        [AnalyzeEvent.loadReferences, AnalyzeEvent.validationError msg] ∧
      (analyze_spectrum cfg lstsq).multipliers = none ∧
      AnalyzeEvent.lstsqSolve ∉ (analyze_spectrum cfg lstsq).events ∧
      AnalyzeEvent.clampMultipliers ∉ (analyze_spectrum cfg lstsq).events := by
  by_cases hn : truthyOptList cfg.selected_ref_names = true
  · have hlen : (cfg.ref_multiplier.getD []).length ≠ (cfg.selected_ref_names.getD []).length := by
      rcases hbad with h | h
      · rw [hn] at h; exact absurd h (by simp)
      · exact h
    refine ⟨"selected_ref_names must have the same length as ref_multiplier, specifying which reference spectrum each multiplier corresponds to.", ?_⟩
    simp [analyze_spectrum, hm, hn, hlen]
  · have hn0 : truthyOptList cfg.selected_ref_names = false := by
      revert hn; cases truthyOptList cfg.selected_ref_names <;> simp
    refine ⟨"selected_ref_names must be provided when ref_multiplier is used.", ?_⟩
    simp [analyze_spectrum, hm, hn0]

unseal Rat.add Rat.mul Rat.inv Rat.sub in
/-- Witness for analyze_validation_after_load at a concrete
configuration. -/
theorem analyze_validation_after_load_witness :
    ∃ msg, (analyze_spectrum cfgManualMismatch [3]).events =
        [AnalyzeEvent.loadReferences, AnalyzeEvent.validationError msg] ∧
      (analyze_spectrum cfgManualMismatch [3]).multipliers = none ∧
      AnalyzeEvent.lstsqSolve ∉ (analyze_spectrum cfgManualMismatch [3]).events ∧
      AnalyzeEvent.clampMultipliers ∉ (analyze_spectrum cfgManualMismatch [3]).events :=
  analyze_validation_after_load cfgManualMismatch [3] (by decide) (Or.inr (by decide))

/-- C6: in solve mode with clamping enabled every returned multiplier is
at least zero, the clamping event follows immediately after the solve
event, and in manual-multiplier mode the configured list is returned
verbatim (or validation fails) with no clamping ever applied. -/
theorem analyze_clamp_nonneg (cfg : Config) (lstsq : List ℚ)
    (hm : cfg.ref_multiplier = none) (hc : cfg.clamp_negative_multipliers = true) :
    (∀ v ∈ ((analyze_spectrum cfg lstsq).multipliers.getD []), 0 ≤ v) ∧
    (∃ pre, (analyze_spectrum cfg lstsq).events =
      pre ++ [AnalyzeEvent.lstsqSolve, AnalyzeEvent.clampMultipliers, AnalyzeEvent.plotSample]) ∧
    (∀ (cfg2 : Config) (ms lstsq2 : List ℚ), cfg2.ref_multiplier = some ms →
      (analyze_spectrum cfg2 lstsq2).multipliers = some ms ∨
      (analyze_spectrum cfg2 lstsq2).multipliers = none) := by
  have hrec : analyze_spectrum cfg lstsq =
      { events := (if truthyOptList cfg.selected_ref_names then
            [AnalyzeEvent.loadReferences, AnalyzeEvent.filterReferences]
          else [AnalyzeEvent.loadReferences]) ++
          (if cfg.baseline_correction_use then [AnalyzeEvent.baselineCorrection] else []) ++
          [AnalyzeEvent.lstsqSolve, AnalyzeEvent.clampMultipliers, AnalyzeEvent.plotSample],
        multipliers := some (lstsq.map (fun v => max v 0)) } := by
    have hnone : truthyOptList (none : Option (List ℚ)) = false := rfl
    cases hsel : truthyOptList cfg.selected_ref_names <;>
      cases hbase : cfg.baseline_correction_use <;>
        simp [analyze_spectrum, hm, hc, hsel, hbase, hnone]
  refine ⟨?_, ?_, ?_⟩
  · rw [hrec]
    intro v hv
    simp only [Option.getD_some, List.mem_map] at hv
    obtain ⟨w, _, rfl⟩ := hv
    exact le_max_right w 0
  · rw [hrec]
    refine ⟨(if truthyOptList cfg.selected_ref_names then
        [AnalyzeEvent.loadReferences, AnalyzeEvent.filterReferences]
      else [AnalyzeEvent.loadReferences]) ++
      (if cfg.baseline_correction_use then [AnalyzeEvent.baselineCorrection] else []), ?_⟩
    simp
  · intro cfg2 ms lstsq2 h2
    simp only [analyze_spectrum, h2]
    split
    · exact Or.inr rfl
    · split
      · exact Or.inr rfl
      · exact Or.inl rfl

unseal Rat.add Rat.mul Rat.inv Rat.sub in
/-- Witness for analyze_clamp_nonneg: the default configuration with a
solver output containing a negative entry. -/
theorem analyze_clamp_nonneg_witness :
    (∀ v ∈ ((analyze_spectrum {} [-1, 2]).multipliers.getD []), 0 ≤ v) ∧
    (∃ pre, (analyze_spectrum {} [-1, 2]).events =
      pre ++ [AnalyzeEvent.lstsqSolve, AnalyzeEvent.clampMultipliers, AnalyzeEvent.plotSample]) ∧
    (∀ (cfg2 : Config) (ms lstsq2 : List ℚ), cfg2.ref_multiplier = some ms →
      (analyze_spectrum cfg2 lstsq2).multipliers = some ms ∨
      (analyze_spectrum cfg2 lstsq2).multipliers = none) :=
  analyze_clamp_nonneg {} [-1, 2] rfl rfl

/-- C7: the mutating absorbance conversion is idempotent on any spectrum
whose y-unit tag is supported (absorbance or transmittance after strip
and upper-casing): a second application leaves the y sequence and unit
tag of the first application unchanged. -/
theorem convert_to_absorbance_idem (t : ℚ → ℚ) (s : Spectrum) (u : String)
    (hu : s.yunits = some u)
    (hsupp : pyUpper (pyStrip u) = "ABSORBANCE" ∨ pyUpper (pyStrip u) = "TRANSMITTANCE") :
    (convert_to_absorbance t s).bind (convert_to_absorbance t) = convert_to_absorbance t s := by
  have habs : pyUpper (pyStrip "ABSORBANCE") = "ABSORBANCE" := by decide
  rcases hsupp with h | h
  · simp [convert_to_absorbance, hu, h, Except.bind]
  · by_cases ha : pyUpper (pyStrip u) = "ABSORBANCE"
    · simp [convert_to_absorbance, hu, ha, Except.bind]
    · simp [convert_to_absorbance, hu, ha, h, habs, Except.bind]

/-- Witness for convert_to_absorbance_idem on a concrete transmittance
spectrum. -/
theorem convert_to_absorbance_idem_witness :
    (convert_to_absorbance id { yunits := some "TRANSMITTANCE", y := [2] }).bind
      (convert_to_absorbance id) =
    convert_to_absorbance id { yunits := some "TRANSMITTANCE", y := [2] } :=
  convert_to_absorbance_idem id { yunits := some "TRANSMITTANCE", y := [2] }
    "TRANSMITTANCE" rfl (Or.inr (by decide))

/-- The two columns collected by the data-row loop always have equal length. -/
theorem parseCsvRows_length (rows : List String) : ∀ (xs ys : List ℚ),
    parseCsvRows rows = .ok (xs, ys) → xs.length = ys.length := by
  induction rows with
  | nil =>
    intro xs ys h
    simp only [parseCsvRows] at h
    cases h
    rfl
  | cons l rest ih =>
    intro xs ys h
    simp only [parseCsvRows] at h
    by_cases hb : pyStrip l = ""
    · rw [if_pos hb] at h
      exact ih xs ys h
    · rw [if_neg hb] at h
      by_cases h2 : (pySplitChar ',' (pyStrip l)).length < 2
      · rw [if_pos h2] at h
        exact Except.noConfusion h
      · rw [if_neg h2] at h
        rcases hx : parseFloat ((pySplitChar ',' (pyStrip l)).getD 0 "") with _ | xv <;>
          rw [hx] at h
        · exact Except.noConfusion h
        · rcases hy : parseFloat ((pySplitChar ',' (pyStrip l)).getD 1 "") with _ | yv <;>
            rw [hy] at h
          · exact Except.noConfusion h
          · rcases hr : parseCsvRows rest with e | ⟨xs', ys'⟩ <;> rw [hr] at h
            · exact Except.noConfusion h
            · injection h with hpair
              injection hpair with hl1 hl2
              subst hl1
              subst hl2
              simp [ih xs' ys' hr]

/-- Characterization of a data row that the tabular parse accepts:
blank after stripping, or at least two comma-separated fields with the
first two numeric. -/
def csvRowOk (l : String) : Bool :=
  pyStrip l = "" ||
    (decide (2 ≤ (pySplitChar ',' (pyStrip l)).length) &&
     (parseFloat ((pySplitChar ',' (pyStrip l)).getD 0 "")).isSome &&
     (parseFloat ((pySplitChar ',' (pyStrip l)).getD 1 "")).isSome)

/-- C8 amended: the data-row loop succeeds exactly when every row is
blank or splits into AT LEAST two comma fields whose first two are
numeric (rows with extra fields are accepted, the extra fields ignored);
when it fails, the error identifies the offending row text and is the
fewer-than-two-columns error or the non-numeric error. -/
theorem parse_csv_rows_validation (rows : List String) :
    ((∃ xy, parseCsvRows rows = Except.ok xy) ↔ ∀ l ∈ rows, csvRowOk l = true) ∧
    (∀ e, parseCsvRows rows = .error e →
      ∃ l ∈ rows, csvRowOk l = false ∧
        (e = "Invalid CSV row (expected 2 columns): " ++ pyStrip l ∨
         e = "Non-numeric value in row: " ++ pyStrip l)) := by
  induction rows with
  | nil =>
    constructor
    · simp [parseCsvRows]
    · intro e he
      simp [parseCsvRows] at he
  | cons l rest ih =>
    obtain ⟨ih1, ih2⟩ := ih
    constructor
    · constructor
      · rintro ⟨xy, hxy⟩ l' hl'
        simp only [parseCsvRows] at hxy
        by_cases hb : pyStrip l = ""
        · rw [if_pos hb] at hxy
          rcases List.mem_cons.mp hl' with rfl | hm
          · simp [csvRowOk, hb]
          · exact ih1.mp ⟨xy, hxy⟩ l' hm
        · rw [if_neg hb] at hxy
          by_cases h2 : (pySplitChar ',' (pyStrip l)).length < 2
          · rw [if_pos h2] at hxy
            exact Except.noConfusion hxy
          · rw [if_neg h2] at hxy
            rcases hx : parseFloat ((pySplitChar ',' (pyStrip l)).getD 0 "") with _ | xv <;>
              rw [hx] at hxy
            · exact Except.noConfusion hxy
            · rcases hy : parseFloat ((pySplitChar ',' (pyStrip l)).getD 1 "") with _ | yv <;>
                rw [hy] at hxy
              · exact Except.noConfusion hxy
              · rcases hr : parseCsvRows rest with e | xy' <;> rw [hr] at hxy
                · exact Except.noConfusion hxy
                · rcases List.mem_cons.mp hl' with rfl | hm
                  · simp only [csvRowOk, Bool.or_eq_true, Bool.and_eq_true, decide_eq_true_eq]
                    exact Or.inr ⟨⟨by omega, by rw [hx]; rfl⟩, by rw [hy]; rfl⟩
                  · exact ih1.mp ⟨xy', hr⟩ l' hm
      · intro hall
        obtain ⟨⟨xs, ys⟩, hxy⟩ := ih1.mpr (fun l' hl' => hall l' (List.mem_cons_of_mem l hl'))
        have hl := hall l (List.mem_cons_self l rest)
        simp only [parseCsvRows]
        by_cases hb : pyStrip l = ""
        · rw [if_pos hb]
          exact ⟨_, hxy⟩
        · rw [if_neg hb]
          simp only [csvRowOk, Bool.or_eq_true, Bool.and_eq_true, decide_eq_true_eq] at hl
          rcases hl with hb' | ⟨⟨h2le, hx1⟩, hy1⟩
          · exact absurd hb' hb
          · rw [if_neg (by omega : ¬ (pySplitChar ',' (pyStrip l)).length < 2)]
            obtain ⟨xv, hxv⟩ := Option.isSome_iff_exists.mp hx1
            obtain ⟨yv, hyv⟩ := Option.isSome_iff_exists.mp hy1
            rw [hxv, hyv, hxy]
            exact ⟨_, rfl⟩
    · intro e he
      simp only [parseCsvRows] at he
      by_cases hb : pyStrip l = ""
      · rw [if_pos hb] at he
        obtain ⟨l', hm, hbad⟩ := ih2 e he
        exact ⟨l', List.mem_cons_of_mem l hm, hbad⟩
      · rw [if_neg hb] at he
        by_cases h2 : (pySplitChar ',' (pyStrip l)).length < 2
        · rw [if_pos h2] at he
          injection he with hmsg
          subst hmsg
          refine ⟨l, List.mem_cons_self l rest, ?_, Or.inl rfl⟩
          simp only [csvRowOk, Bool.or_eq_false_iff, Bool.and_eq_false_iff,
            decide_eq_false_iff_not]
          exact ⟨hb, Or.inl (Or.inl (by omega))⟩
        · rw [if_neg h2] at he
          rcases hx : parseFloat ((pySplitChar ',' (pyStrip l)).getD 0 "") with _ | xv <;>
            rw [hx] at he
          · injection he with hmsg
            subst hmsg
            refine ⟨l, List.mem_cons_self l rest, ?_, Or.inr rfl⟩
            simp only [csvRowOk, Bool.or_eq_false_iff, Bool.and_eq_false_iff,
              decide_eq_false_iff_not]
            exact ⟨hb, Or.inl (Or.inr (by rw [hx]; rfl))⟩
          · rcases hy : parseFloat ((pySplitChar ',' (pyStrip l)).getD 1 "") with _ | yv <;>
              rw [hy] at he
            · injection he with hmsg
              subst hmsg
              refine ⟨l, List.mem_cons_self l rest, ?_, Or.inr rfl⟩
              simp only [csvRowOk, Bool.or_eq_false_iff, Bool.and_eq_false_iff,
                decide_eq_false_iff_not]
              exact ⟨hb, Or.inr (by rw [hy]; rfl)⟩
            · rcases hr : parseCsvRows rest with e' | xy' <;> rw [hr] at he
              · injection he with hmsg
                subst hmsg
                obtain ⟨l', hm, hbad⟩ := ih2 e' hr
                exact ⟨l', List.mem_cons_of_mem l hm, hbad⟩
              · exact Except.noConfusion he

/-- C9: whenever the tabular parse returns a spectrum, the derived
first-y field holds the y-value at index 1 (the second one), the point
count is the array length, the min/max fields are the min/max of the
collected columns, and first/last x come from the ends of the x column. -/
theorem from_csv_metadata (path : String) (nm mf : Option String) (hs : Nat)
    (lines : List String) (s : Spectrum)
    (h : from_csv path nm mf hs lines = .ok s) :
    s.firsty = s.y.get? 1 ∧ s.npoints = some (s.x.length : ℤ) ∧ s.x.length = s.y.length ∧
    s.maxx = (pyMax s.x).toOption ∧ s.minx = (pyMin s.x).toOption ∧
    s.maxy = (pyMax s.y).toOption ∧ s.miny = (pyMin s.y).toOption ∧
    s.firstx = s.x.head? ∧ s.lastx = s.x.getLast? := by
  simp only [from_csv] at h
  rcases hp : parseCsvRows (lines.drop hs) with e | ⟨xs, ys⟩ <;> rw [hp] at h
  · exact Except.noConfusion h
  · simp only [finalizeCsv] at h
    rcases hmx : pyMax xs with e | mx <;> rw [hmx] at h
    · exact Except.noConfusion h
    rcases hmn : pyMin xs with e | mn <;> rw [hmn] at h
    · exact Except.noConfusion h
    rcases hmy : pyMax ys with e | my <;> rw [hmy] at h
    · exact Except.noConfusion h
    rcases hny : pyMin ys with e | ny <;> rw [hny] at h
    · exact Except.noConfusion h
    rcases hhd : xs.head? with _ | fx <;> rw [hhd] at h
    · exact Except.noConfusion h
    rcases hlt : xs.getLast? with _ | lx <;> rw [hlt] at h
    · exact Except.noConfusion h
    rcases hf1 : ys.get? 1 with _ | fy <;> rw [hf1] at h
    · exact Except.noConfusion h
    injection h with hrec
    subst hrec
    have hl := parseCsvRows_length _ xs ys hp
    exact ⟨hf1.symm, rfl, hl, by rw [hmx]; rfl, by rw [hmn]; rfl, by rw [hmy]; rfl,
      by rw [hny]; rfl, hhd.symm, hlt.symm⟩

/-- A well-formed two-row sample file. -/
def csvTwoRowLines : List String := ["wavenumber,absorbance", "1.0,0.5", "2.0,1.5"]

/-- The spectrum parsed from csvTwoRowLines. -/
def csvTwoRowSpec : Spectrum :=
  (from_csv "data/sample.csv" none none 1 csvTwoRowLines).toOption.getD {}

unseal Rat.add Rat.mul Rat.inv Rat.sub in
/-- Witness for from_csv_metadata at a concrete two-row file. -/
theorem from_csv_metadata_witness :
    csvTwoRowSpec.firsty = csvTwoRowSpec.y.get? 1 ∧
    csvTwoRowSpec.npoints = some (csvTwoRowSpec.x.length : ℤ) ∧
    csvTwoRowSpec.x.length = csvTwoRowSpec.y.length ∧
    csvTwoRowSpec.maxx = (pyMax csvTwoRowSpec.x).toOption ∧
    csvTwoRowSpec.minx = (pyMin csvTwoRowSpec.x).toOption ∧
    csvTwoRowSpec.maxy = (pyMax csvTwoRowSpec.y).toOption ∧
    csvTwoRowSpec.miny = (pyMin csvTwoRowSpec.y).toOption ∧
    csvTwoRowSpec.firstx = csvTwoRowSpec.x.head? ∧
    csvTwoRowSpec.lastx = csvTwoRowSpec.x.getLast? :=
  from_csv_metadata "data/sample.csv" none none 1 csvTwoRowLines csvTwoRowSpec (by decide)

/-- C10: a tabular file whose data section holds exactly one well-formed
row fails with the unguarded IndexError from `y_vals[1]`, and one with no
data rows fails with the unguarded ValueError from `max` of an empty
sequence — neither is a parse error of the documented taxonomy. -/
theorem from_csv_short_data (path : String) (nm mf : Option String) (hs : Nat)
    (lines : List String) (xs ys : List ℚ)
    (hp : parseCsvRows (lines.drop hs) = .ok (xs, ys)) :
    (xs.length = 1 →
      from_csv path nm mf hs lines = .error "IndexError: list index out of range") ∧
    (xs = [] →
      from_csv path nm mf hs lines = .error "ValueError: max() arg is an empty sequence") := by
  have hlen := parseCsvRows_length _ xs ys hp
  constructor
  · intro h1
    have h1y : ys.length = 1 := by omega
    obtain ⟨x0, hxs⟩ := List.length_eq_one.mp h1
    obtain ⟨y0, hys⟩ := List.length_eq_one.mp h1y
    subst hxs
    subst hys
    simp only [from_csv]
    rw [hp]
    rfl
  · intro h0
    rw [h0] at hlen
    simp only [List.length_nil] at hlen
    have h0y : ys = [] := List.length_eq_zero.mp hlen.symm
    subst h0
    subst h0y
    simp only [from_csv]
    rw [hp]
    rfl

unseal Rat.add Rat.mul Rat.inv Rat.sub in
/-- Witness for from_csv_short_data: a one-data-row file and a
zero-data-row file. -/
theorem from_csv_short_data_witness :
    (from_csv "p.csv" none none 1 ["hdr", "1.0,0.5"] =
      .error "IndexError: list index out of range") ∧
    (from_csv "p.csv" none none 1 ["hdr"] =
      .error "ValueError: max() arg is an empty sequence") :=
  ⟨(from_csv_short_data "p.csv" none none 1 ["hdr", "1.0,0.5"] [1] [1/2] (by decide)).1 (by decide),
   (from_csv_short_data "p.csv" none none 1 ["hdr"] [] [] (by decide)).2 rfl⟩

unseal Rat.add Rat.mul Rat.inv Rat.sub in
/-- C8 counterexample: a data row with three comma-separated fields is
not rejected — the parse succeeds, silently ignoring the third field —
refuting the claim that a row with more than two fields fails. -/
theorem from_csv_extra_columns_cex :
    (pySplitChar ',' "1.0,0.5,junk").length = 3 ∧
    from_csv "d/s.csv" none none 1 ["hdr", "1.0,0.5,junk", "2.0,1.5"] =
      .ok { title := some "s", xunits := some "1/cm", yunits := some "ABSORBANCE",
            maxx := some 2, minx := some 1, maxy := some (3/2), miny := some (1/2),
            firstx := some 1, lastx := some 2, firsty := some (3/2), npoints := some 2,
            x := [1, 2], y := [1/2, 3/2] } := by
  decide

/-- Witness for parse_csv_rows_validation: its error implication applied
to a concrete one-field row. -/
theorem parse_csv_rows_validation_witness :
    ∃ l ∈ ["1.0"], csvRowOk l = false ∧
      ("Invalid CSV row (expected 2 columns): 1.0" =
        "Invalid CSV row (expected 2 columns): " ++ pyStrip l ∨
       "Invalid CSV row (expected 2 columns): 1.0" = "Non-numeric value in row: " ++ pyStrip l) :=
  (parse_csv_rows_validation ["1.0"]).2 "Invalid CSV row (expected 2 columns): 1.0" (by decide)

/-- C1: every spectrum successfully loaded from the structured format
has x and y of equal positive length, npoints equal to that length,
and its x sequence regenerated as firstx + i * deltax for every index
i (the x anchors on data lines are never used). -/
theorem from_jdx_grid_invariant (path : String) (lines : List String) (s : Spectrum)
    (h : from_jdx path lines = .ok s) :
    s.x.length = s.y.length ∧ 0 < s.x.length ∧ s.npoints = some (s.x.length : ℤ) ∧
    ∃ fx dx, s.firstx = some fx ∧ s.deltax = some dx ∧
      ∀ i, i < s.x.length → s.x.getD i 0 = fx + (i : ℚ) * dx := by
  have hgrid : ∀ (k : ℕ) (dx fx : ℚ) (i : ℕ),
      i < ((List.range k).map (fun j : ℕ => (j : ℚ) * dx + fx)).length →
      ((List.range k).map (fun j : ℕ => (j : ℚ) * dx + fx)).getD i 0 = fx + (i : ℚ) * dx := by
    intro k dx fx i hi
    simp only [List.length_map, List.length_range] at hi
    rw [List.getD_eq_getElem _ _ (by simpa using hi)]
    simp only [List.getElem_map, List.getElem_range]
    ring
  simp only [from_jdx] at h
  rcases hscan : scanJdx lines with e | ⟨s0, yv⟩ <;> rw [hscan] at h
  · exact Except.noConfusion h
  · simp only [finalizeJdx] at h
    split at h
    · exact Except.noConfusion h
    · split at h
      · exact Except.noConfusion h
      · split at h
        · rename_i nv dxv fxv hnp hdx hfx
          split at h
          · exact Except.noConfusion h
          · split at h
            · exact Except.noConfusion h
            · split at h
              · exact Except.noConfusion h
              · rename_i hx0 hy0 hxy
                split at h
                · rename_i yf hyf
                  split at h
                  · injection h with hrec
                    subst hrec
                    simp only [List.length_map, List.length_range] at hx0 hxy ⊢
                    refine ⟨by omega, by omega, ?_, fxv, dxv, hfx, hdx, ?_⟩
                    · rw [hnp]
                      exact congrArg some (by omega)
                    · intro i hi
                      exact hgrid nv.toNat dxv fxv i (by simpa using hi)
                  · injection h with hrec
                    subst hrec
                    simp only [List.length_map, List.length_range] at hx0 hxy ⊢
                    refine ⟨by omega, by omega, ?_, fxv, dxv, hfx, hdx, ?_⟩
                    · rw [hnp]
                      exact congrArg some (by omega)
                    · intro i hi
                      exact hgrid nv.toNat dxv fxv i (by simpa using hi)
                · injection h with hrec
                  subst hrec
                  simp only [List.length_map, List.length_range] at hx0 hxy ⊢
                  refine ⟨by omega, by omega, ?_, fxv, dxv, hfx, hdx, ?_⟩
                  · rw [hnp]
                    exact congrArg some (by omega)
                  · intro i hi
                    exact hgrid nv.toNat dxv fxv i (by simpa using hi)
        · exact Except.noConfusion h

/-- A well-formed structured file whose required fields all parse to
truthy values. -/
def jdxGoodLines : List String :=
  ["##TITLE=Water", "##MOLFORM=H2O", "##YUNITS=TRANSMITTANCE",
   "##FIRSTX=1.0", "##DELTAX=1.0", "##NPOINTS=3", "1.0 0.1 0.2 0.3"]

/-- The spectrum parsed from jdxGoodLines. -/
def jdxGoodSpec : Spectrum := (from_jdx "w.jdx" jdxGoodLines).toOption.getD {}

unseal Rat.add Rat.mul Rat.inv Rat.sub in
/-- Witness for from_jdx_grid_invariant at a concrete file. -/
theorem from_jdx_grid_invariant_witness :
    jdxGoodSpec.x.length = jdxGoodSpec.y.length ∧ 0 < jdxGoodSpec.x.length ∧
    jdxGoodSpec.npoints = some (jdxGoodSpec.x.length : ℤ) ∧
    ∃ fx dx, jdxGoodSpec.firstx = some fx ∧ jdxGoodSpec.deltax = some dx ∧
      ∀ i, i < jdxGoodSpec.x.length → jdxGoodSpec.x.getD i 0 = fx + (i : ℚ) * dx :=
  from_jdx_grid_invariant "w.jdx" jdxGoodLines jdxGoodSpec (by decide)

/-- findIdx returns the first index whose element satisfies the test. -/
theorem findIdxEq {α : Type} (p : α → Bool) (l : List α) (d : α) (k : ℕ) (hk : k < l.length)
    (hpk : p (l.getD k d) = true) (hbefore : ∀ i, i < k → p (l.getD i d) = false) :
    l.findIdx p = k := by
  have hle : l.findIdx p ≤ k := by
    by_contra hgt
    push_neg at hgt
    have hfalse := List.not_of_lt_findIdx hgt
    rw [← List.getD_eq_getElem l d hk] at hfalse
    rw [hpk] at hfalse
    cases hfalse
  rcases lt_or_eq_of_le hle with hlt | heq
  · have hflen : l.findIdx p < l.length := lt_trans hlt hk
    have hpf := @List.findIdx_getElem _ _ _ hflen
    rw [← List.getD_eq_getElem l d hflen] at hpf
    rw [hbefore _ hlt] at hpf
    cases hpf
  · exact heq

/-- findIdx returns the length when no element satisfies the test. -/
theorem findIdxLen {α : Type} (p : α → Bool) (l : List α) (d : α)
    (hall : ∀ i, i < l.length → p (l.getD i d) = false) :
    l.findIdx p = l.length := by
  have h1 := @List.findIdx_le_length _ p l
  rcases lt_or_eq_of_le h1 with hlt | heq
  · have hpf := @List.findIdx_getElem _ _ _ hlt
    rw [← List.getD_eq_getElem l d hlt] at hpf
    rw [hall _ hlt] at hpf
    cases hpf
  · exact heq

/-- A strictly increasing list is monotone under indexed access. -/
theorem sortedGetDMono {xp : List ℚ} (hp : List.Pairwise (· < ·) xp) :
    ∀ i k, i ≤ k → k < xp.length → xp.getD i 0 ≤ xp.getD k 0 := by
  intro i k hik hk
  rcases eq_or_lt_of_le hik with rfl | hlt
  · exact le_refl _
  · have h := List.pairwise_iff_getElem.mp hp i k (by omega) hk hlt
    rw [List.getD_eq_getElem xp 0 (by omega), List.getD_eq_getElem xp 0 hk]
    exact le_of_lt h

/-- C5 amended: with the 0.0 fills of interpolate_to, every query point
strictly outside the span of the knots yields exactly 0, whatever the
knot order; and for a strictly ASCENDING knot sequence a query point
inside the interval [xp j, xp (j+1)] yields the piecewise-linear
interpolant of that segment.  (For a descending sequence the interior
clause fails; see the counterexample.) -/
theorem np_interp_grid_semantics :
    (∀ (xp fp : List ℚ) (x : ℚ), xp ≠ [] →
      ((∀ v ∈ xp, x < v) ∨ (∀ v ∈ xp, v < x)) → np_interp xp fp 0 0 x = 0) ∧
    (∀ (xp fp : List ℚ) (x : ℚ) (j : ℕ), List.Chain' (· < ·) xp →
      fp.length = xp.length → j + 1 < xp.length →
      xp.getD j 0 ≤ x → x ≤ xp.getD (j + 1) 0 →
      np_interp xp fp 0 0 x =
        fp.getD j 0 + (fp.getD (j + 1) 0 - fp.getD j 0) * (x - xp.getD j 0) /
          (xp.getD (j + 1) 0 - xp.getD j 0)) := by
  constructor
  · intro xp fp x hne hout
    simp only [np_interp]
    by_cases h1 : xp.getLastD 0 < x
    · rw [if_pos h1]
    · rw [if_neg h1]
      by_cases h2 : x < xp.headD 0
      · rw [if_pos h2]
      · exfalso
        obtain ⟨a, t, rfl⟩ := List.exists_cons_of_ne_nil hne
        rcases hout with hall | hall
        · exact h2 (hall a (List.mem_cons_self a t))
        · apply h1
          have hnn : a :: t ≠ [] := by simp
          have hgl : (a :: t).getLastD 0 = (a :: t).getLast hnn := by
            rw [List.getLastD_eq_getLast?, List.getLast?_eq_getLast _ hnn]
            rfl
          rw [hgl]
          exact hall _ (List.getLast_mem hnn)
  · intro xp fp x j hchain hlen hj hxj hxj1
    have hp : List.Pairwise (· < ·) xp := List.chain'_iff_pairwise.mp hchain
    have hmono := sortedGetDMono hp
    have hne : xp ≠ [] := by
      intro hnil
      rw [hnil] at hj
      simp at hj
    have hstrict : xp.getD j 0 < xp.getD (j + 1) 0 := by
      have := List.pairwise_iff_getElem.mp hp j (j + 1) (by omega) hj (by omega)
      rw [List.getD_eq_getElem xp 0 (by omega), List.getD_eq_getElem xp 0 hj]
      exact this
    have hglast : xp.getLastD 0 = xp.getD (xp.length - 1) 0 := by
      rw [List.getLastD_eq_getLast?, List.getLast?_eq_getLast _ hne]
      rw [List.getLast_eq_getElem xp hne, List.getD_eq_getElem xp 0 (by omega)]
      rfl
    have hghead : xp.headD 0 = xp.getD 0 0 := by
      obtain ⟨a, t, rfl⟩ := List.exists_cons_of_ne_nil hne
      rfl
    have hlast : ¬ (xp.getLastD 0 < x) := by
      rw [hglast]
      exact not_lt.mpr (le_trans hxj1 (hmono (j + 1) (xp.length - 1) (by omega) (by omega)))
    have hhead : ¬ (x < xp.headD 0) := by
      rw [hghead]
      exact not_lt.mpr (le_trans (hmono 0 j (by omega) (by omega)) hxj)
    simp only [np_interp]
    rw [if_neg hlast, if_neg hhead]
    rcases eq_or_lt_of_le hxj1 with heq | hlt
    · by_cases hl2 : j + 2 < xp.length
      · have hfi : xp.findIdx (fun v => decide (x < v)) = j + 2 := by
          apply findIdxEq _ _ 0 _ hl2
          · simp only [decide_eq_true_eq]
            calc x = xp.getD (j + 1) 0 := heq
            _ < xp.getD (j + 2) 0 := by
                have := List.pairwise_iff_getElem.mp hp (j + 1) (j + 2) hj hl2 (by omega)
                rw [List.getD_eq_getElem xp 0 hj, List.getD_eq_getElem xp 0 hl2]
                exact this
          · intro i hi
            simp only [decide_eq_false_iff_not, not_lt]
            calc xp.getD i 0 ≤ xp.getD (j + 1) 0 := hmono i (j + 1) (by omega) hj
            _ = x := heq.symm
        rw [hfi]
        rw [if_neg (by omega : ¬ (j + 2 = 0)), if_neg (by omega : ¬ xp.length ≤ j + 2)]
        have hsub : j + 2 - 1 = j + 1 := by omega
        rw [hsub, ← heq]
        rw [sub_self, mul_zero, zero_div, add_zero]
        have hxlt : xp.getD j 0 < x := by
          rw [heq]
          exact hstrict
        rw [mul_div_assoc, div_self (ne_of_gt (sub_pos.mpr hxlt)), mul_one]
        ring
      · have hlen2 : xp.length = j + 2 := by omega
        have hfi : xp.findIdx (fun v => decide (x < v)) = xp.length := by
          apply findIdxLen _ _ 0
          intro i hi
          simp only [decide_eq_false_iff_not, not_lt]
          calc xp.getD i 0 ≤ xp.getD (j + 1) 0 := hmono i (j + 1) (by omega) hj
          _ = x := heq.symm
        rw [hfi]
        rw [if_neg (by omega : ¬ xp.length = 0), if_pos (le_refl xp.length)]
        have hfne : fp ≠ [] := by
          intro hnil
          rw [hnil] at hlen
          simp at hlen
          omega
        have hgflast : fp.getLastD 0 = fp.getD (fp.length - 1) 0 := by
          rw [List.getLastD_eq_getLast?, List.getLast?_eq_getLast _ hfne]
          rw [List.getLast_eq_getElem fp hfne, List.getD_eq_getElem fp 0 (by omega)]
          rfl
        have hidx : fp.length - 1 = j + 1 := by omega
        rw [hgflast, hidx, heq]
        rw [mul_div_assoc, div_self (ne_of_gt (sub_pos.mpr hstrict)), mul_one]
        ring
    · have hfi : xp.findIdx (fun v => decide (x < v)) = j + 1 := by
        apply findIdxEq _ _ 0 _ hj
        · simp only [decide_eq_true_eq]
          exact hlt
        · intro i hi
          simp only [decide_eq_false_iff_not, not_lt]
          exact le_trans (hmono i j (by omega) (by omega)) hxj
      rw [hfi]
      rw [if_neg (by omega : ¬ (j + 1 = 0)), if_neg (by omega : ¬ xp.length ≤ j + 1)]
      have hsub : j + 1 - 1 = j := by omega
      rw [hsub]

/-- A reference spectrum with a strictly descending, monotonic x
sequence, already in absorbance units. -/
def refDescending : Spectrum := { x := [3, 1], y := [1, 5], yunits := some "ABSORBANCE" }

unseal Rat.add Rat.mul Rat.inv Rat.sub in
/-- C5 counterexample: the reference grid [3, 1] is monotonic
(descending) and the query point 2 lies strictly inside its x-range
(1, 3), yet grid interpolation returns 0.0 there instead of the
piecewise-linear interpolant of the segment (3, 1)-(1, 5), which is
3: numpy's interval search assumes ascending knots. -/
theorem interpolate_descending_cex :
    List.Chain' (· > ·) refDescending.x ∧
    ((1 : ℚ) < 2 ∧ (2 : ℚ) < 3) ∧
    interpolate_to id [2] refDescending = .ok [0] ∧
    ((1 : ℚ) + (5 - 1) * (2 - 3) / (1 - 3) = 3) ∧ ((0 : ℚ) ≠ 3) := by
  refine ⟨?_, by decide, by decide, by decide, by decide⟩
  simp only [refDescending]
  norm_num [List.chain'_cons]

unseal Rat.add Rat.mul Rat.inv Rat.sub in
/-- Witness for np_interp_grid_semantics: its interior clause applied to
the ascending grid [1, 3] with values [5, 1] at the midpoint 2. -/
theorem np_interp_grid_semantics_witness :
    np_interp [1, 3] [5, 1] 0 0 2 = 3 := by
  have h := np_interp_grid_semantics.2 [1, 3] [5, 1] 2 0 (by norm_num [List.chain'_cons])
    (by decide) (by decide) (by decide) (by decide)
  rw [h]
  decide
